import Mathlib

set_option linter.unusedVariables false

/-!
Verification of the Pikoo room-state coordinator (backend store layer).

The definitions below are a shallow embedding of the repository's store
module (`createRoom`, `addActivity`, `startTimer`, `pauseTimer`,
`resetTimer`, `skipPhase`, `addParticipant`, `removeParticipant`,
`updateSettings`, todo operations) translated line by line from the
TypeScript source.  The durable store is modelled as a map from room id to
room record with value semantics: `getRoom` returns a copy of the stored
record and `saveRoom` replaces it wholesale, exactly like the Redis
(`JSON.parse`/`setex`) path of the source.  The JavaScript in-memory-map
path returns a live reference instead, so a later `saveRoom` of an object
obtained before an intervening write still carries that write; where a
claim depends on this aliasing, a separate `...Mem` definition models it by
re-reading the room after the intervening write.

Numbers are Nat (epoch milliseconds / seconds); fields that are
`number | null` in the source are `Option Nat`.  The timer's
`lastUpdatedAt` is `undefined` on freshly initialised rooms and the source
only ever tests it for truthiness (`room.timer.lastUpdatedAt && ...`), so
it is modelled as a `Nat` where `0` stands for the absent/falsy value.
`timestamp || Date.now()` is modelled by `jsOr`, which (like JavaScript)
also falls back to `now` when the supplied timestamp is `0`.
-/

inductive Phase where
  | focus
  | brk
  | long_break
deriving DecidableEq, Repr

inductive RoomMode where
  | collab
  | host
deriving DecidableEq, Repr

inductive ActivityType where
  | timer_start
  | timer_pause
  | timer_reset
  | timer_skip
  | join
  | leave
deriving DecidableEq, Repr

structure RoomSettings where
  focusSec : Nat
  breakSec : Nat
  longBreakSec : Nat
  longBreakEvery : Nat
  mode : RoomMode
deriving DecidableEq, Repr

structure TimerState where
  running : Bool
  phase : Phase
  phaseEndsAt : Option Nat
  remainingSecWhenPaused : Nat
  cycleCount : Nat
  lastUpdatedAt : Nat
deriving DecidableEq, Repr

structure Participant where
  id : String
  uniqueId : String
  name : String
deriving DecidableEq, Repr

structure ChatMessage where
  id : String
  senderId : String
  senderName : String
  text : String
  timestamp : Nat
deriving DecidableEq, Repr

structure TodoItem where
  id : String
  text : String
  completed : Bool
  createdAt : Nat
deriving DecidableEq, Repr

structure UserTodos where
  userId : String
  userName : String
  todos : List TodoItem
  activeTodoId : Option String
  isPublic : Bool
deriving DecidableEq, Repr

structure ActivityLog where
  id : String
  type : ActivityType
  userId : String
  userName : String
  timestamp : Nat
  details : Option String
deriving DecidableEq, Repr

structure RoomState where
  id : String
  settings : RoomSettings
  timer : TimerState
  hostId : Option String
  createdAt : Nat
  participants : List Participant
  messages : List ChatMessage
  userTodos : List (String × UserTodos)
  history : List ActivityLog
deriving DecidableEq, Repr

def DEFAULT_SETTINGS : RoomSettings :=
  { focusSec := 1500, breakSec := 300, longBreakSec := 900,
    longBreakEvery := 4, mode := RoomMode.collab }

def MAX_MESSAGES : Nat := 100

def MAX_HISTORY : Nat := 50

/-- Initial timer state: paused, focus phase, full focus duration, cycle 0.
The source initialiser sets no `lastUpdatedAt`, leaving it `undefined`
(falsy), modelled here as `0`. -/
def getInitialTimerState (settings : RoomSettings) : TimerState :=
  { running := false, phase := Phase.focus, phaseEndsAt := none,
    remainingSecWhenPaused := settings.focusSec, cycleCount := 0,
    lastUpdatedAt := 0 }

def getPhaseDuration (phase : Phase) (settings : RoomSettings) : Nat :=
  match phase with
  | Phase.focus => settings.focusSec
  | Phase.brk => settings.breakSec
  | Phase.long_break => settings.longBreakSec

def phaseStr (phase : Phase) : String :=
  match phase with
  | Phase.focus => "focus"
  | Phase.brk => "break"
  | Phase.long_break => "long_break"

/-- The durable store: room records keyed by room id. -/
def Store : Type := String → Option RoomState

def emptyStore : Store := fun _ => none

def getRoom (store : Store) (roomId : String) : Option RoomState :=
  store roomId

def saveRoom (store : Store) (room : RoomState) : Store :=
  fun k => if k = room.id then some room else store k

/-- JavaScript `timestamp || Date.now()`: `0` is falsy. -/
def jsOr (timestamp : Option Nat) (now : Nat) : Nat :=
  match timestamp with
  | some t => if t = 0 then now else t
  | none => now

/-- `Math.max(0, Math.ceil((deadline - now) / 1000))` over integers. -/
def ceilSec (deadline now : Nat) : Nat :=
  if deadline ≤ now then 0 else (deadline - now + 999) / 1000

/-- `addActivity`: read the room, prepend a log entry, trim to
`MAX_HISTORY`, save.  The source's entry id carries a random suffix that
nothing ever reads; it is modelled by the timestamp alone. -/
def addActivity (store : Store) (roomId : String) (type : ActivityType)
    (userId userName : String) (details : Option String) (now : Nat) : Store :=
  match getRoom store roomId with
  | none => store
  | some room =>
    let log : ActivityLog :=
      { id := toString now, type := type, userId := userId,
        userName := userName, timestamp := now, details := details }
    saveRoom store { room with history := (log :: room.history).take MAX_HISTORY }

/-- `startTimer`, Redis (value-semantics) path: the room read at the top is
a copy, so the final `saveRoom` writes back its (stale) history. -/
def startTimer (store : Store) (roomId userId userName : String)
    (timestamp : Option Nat) (now : Nat) : Store × Option TimerState :=
  match getRoom store roomId with
  | none => (store, none)
  | some room =>
    let actionTime := jsOr timestamp now
    let store1 := addActivity store roomId ActivityType.timer_start userId
      userName (some (phaseStr room.timer.phase)) now
    if room.timer.lastUpdatedAt ≠ 0 ∧ actionTime < room.timer.lastUpdatedAt then
      (store1, some room.timer)
    else
      let timer := { room.timer with
        running := true,
        phaseEndsAt := some (now + room.timer.remainingSecWhenPaused * 1000),
        lastUpdatedAt := actionTime }
      (saveRoom store1 { room with timer := timer }, some timer)

/-- `startTimer`, in-memory-map path: `getRoom` returns the live object, so
the history appended by `addActivity` is visible through the alias when the
timer mutation is saved; modelled by re-reading after `addActivity`. -/
def startTimerMem (store : Store) (roomId userId userName : String)
    (timestamp : Option Nat) (now : Nat) : Store × Option TimerState :=
  match getRoom store roomId with
  | none => (store, none)
  | some room0 =>
    let actionTime := jsOr timestamp now
    let store1 := addActivity store roomId ActivityType.timer_start userId
      userName (some (phaseStr room0.timer.phase)) now
    let room := (getRoom store1 roomId).getD room0
    if room.timer.lastUpdatedAt ≠ 0 ∧ actionTime < room.timer.lastUpdatedAt then
      (store1, some room.timer)
    else
      let timer := { room.timer with
        running := true,
        phaseEndsAt := some (now + room.timer.remainingSecWhenPaused * 1000),
        lastUpdatedAt := actionTime }
      (saveRoom store1 { room with timer := timer }, some timer)

def pauseTimer (store : Store) (roomId userId userName : String)
    (timestamp : Option Nat) (now : Nat) : Store × Option TimerState :=
  match getRoom store roomId with
  | none => (store, none)
  | some room =>
    let actionTime := jsOr timestamp now
    let store1 := addActivity store roomId ActivityType.timer_pause userId
      userName (some (phaseStr room.timer.phase)) now
    if room.timer.lastUpdatedAt ≠ 0 ∧ actionTime < room.timer.lastUpdatedAt then
      (store1, some room.timer)
    else if room.timer.running = false then
      (store1, some room.timer)
    else
      let remaining := ceilSec (room.timer.phaseEndsAt.getD 0) now
      let timer := { room.timer with
        running := false,
        phaseEndsAt := none,
        remainingSecWhenPaused := remaining,
        lastUpdatedAt := actionTime }
      (saveRoom store1 { room with timer := timer }, some timer)

def resetTimer (store : Store) (roomId userId userName : String)
    (timestamp : Option Nat) (now : Nat) : Store × Option TimerState :=
  match getRoom store roomId with
  | none => (store, none)
  | some room =>
    let actionTime := jsOr timestamp now
    let store1 := addActivity store roomId ActivityType.timer_reset userId
      userName none now
    if room.timer.lastUpdatedAt ≠ 0 ∧ actionTime < room.timer.lastUpdatedAt then
      (store1, some room.timer)
    else
      let duration := getPhaseDuration room.timer.phase room.settings
      let timer := { room.timer with
        running := false,
        phaseEndsAt := none,
        remainingSecWhenPaused := duration,
        lastUpdatedAt := actionTime }
      (saveRoom store1 { room with timer := timer }, some timer)

/-- Optional compare-and-swap guard for `skipPhase`.  Each field mirrors an
optional property of the source's guard object; `expectedPhaseEndsAt` is
`number | null | undefined`, hence `Option (Option Nat)`. -/
structure SkipGuard where
  expectedPhase : Option Phase
  expectedPhaseEndsAt : Option (Option Nat)
  expectedRunning : Option Bool
deriving DecidableEq, Repr

/-- The guard-rejection test of `skipPhase`, in source order: a supplied
`expectedPhase`, `expectedRunning` or `expectedPhaseEndsAt` that differs
from the live timer makes the whole call return null before anything is
logged or written. -/
def guardFails (guard : Option SkipGuard) (t : TimerState) : Bool :=
  match guard with
  | none => false
  | some g =>
    (match g.expectedPhase with
     | some p => t.phase != p
     | none => false) ||
    (match g.expectedRunning with
     | some r => t.running != r
     | none => false) ||
    (match g.expectedPhaseEndsAt with
     | some e => t.phaseEndsAt != e
     | none => false)

def skipPhase (store : Store) (roomId userId userName : String)
    (guard : Option SkipGuard) (timestamp : Option Nat) (now : Nat) :
    Store × Option TimerState :=
  match getRoom store roomId with
  | none => (store, none)
  | some room =>
    if guardFails guard room.timer then
      (store, none)
    else
      let newCycleCount :=
        if room.timer.phase = Phase.focus then room.timer.cycleCount + 1
        else room.timer.cycleCount
      let nextPhase :=
        if room.timer.phase = Phase.focus then
          if newCycleCount % room.settings.longBreakEvery = 0 then
            Phase.long_break
          else Phase.brk
        else Phase.focus
      let actionTime := jsOr timestamp now
      let store1 := addActivity store roomId ActivityType.timer_skip userId
        userName
        (some ("Skipped " ++ phaseStr room.timer.phase ++ " -> " ++ phaseStr nextPhase))
        now
      if room.timer.lastUpdatedAt ≠ 0 ∧ actionTime < room.timer.lastUpdatedAt then
        (store1, some room.timer)
      else
        let duration := getPhaseDuration nextPhase room.settings
        let timer := { room.timer with
          phase := nextPhase,
          cycleCount := newCycleCount,
          running := false,
          phaseEndsAt := none,
          remainingSecWhenPaused := duration,
          lastUpdatedAt := actionTime }
        (saveRoom store1 { room with timer := timer }, some timer)

/-- Partial settings object (`Partial<RoomSettings>`). -/
structure SettingsPatch where
  focusSec : Option Nat
  breakSec : Option Nat
  longBreakSec : Option Nat
  longBreakEvery : Option Nat
  mode : Option RoomMode
deriving DecidableEq, Repr

/-- `{ ...room.settings, ...settings }`. -/
def mergeSettings (s : RoomSettings) (p : SettingsPatch) : RoomSettings :=
  { focusSec := p.focusSec.getD s.focusSec,
    breakSec := p.breakSec.getD s.breakSec,
    longBreakSec := p.longBreakSec.getD s.longBreakSec,
    longBreakEvery := p.longBreakEvery.getD s.longBreakEvery,
    mode := p.mode.getD s.mode }

/-- `updateSettings`: merges the patch and, when the timer is paused,
recomputes `remainingSecWhenPaused` for the current phase.  The source
function takes no timestamp, performs no staleness check and never touches
`timer.lastUpdatedAt` (the gateway passes `payload.timestamp` as a third
argument, which JavaScript silently drops). -/
def updateSettings (store : Store) (roomId : String) (patch : SettingsPatch) :
    Store × Option RoomSettings :=
  match getRoom store roomId with
  | none => (store, none)
  | some room =>
    let settings := mergeSettings room.settings patch
    let timer :=
      if room.timer.running then room.timer
      else { room.timer with
        remainingSecWhenPaused := getPhaseDuration room.timer.phase settings }
    (saveRoom store { room with settings := settings, timer := timer },
     some settings)

def createRoom (store : Store) (roomId : String) (settings : SettingsPatch)
    (hostId : Option String) (now : Nat) : Store × RoomState :=
  let fullSettings := mergeSettings DEFAULT_SETTINGS settings
  let room : RoomState :=
    { id := roomId, settings := fullSettings,
      timer := getInitialTimerState fullSettings, hostId := hostId,
      createdAt := now, participants := [], messages := [], userTodos := [],
      history := [] }
  (saveRoom store room, room)

structure AddParticipantResult where
  success : Bool
  error : Option String
  participants : List Participant
deriving DecidableEq, Repr

/-- `addParticipant`: idempotent on an already-present connection id;
rejects a name (case-insensitively) held by a different persistent user;
otherwise appends the participant, saves, and logs a `join` activity unless
the name is falsy or the anonymous placeholder. -/
def addParticipant (store : Store) (roomId socketId uniqueId participantName : String)
    (now : Nat) : Store × AddParticipantResult :=
  match getRoom store roomId with
  | none => (store, { success := false, error := some "Room not found", participants := [] })
  | some room =>
    if room.participants.any (fun p => p.id == socketId) then
      (store, { success := true, error := none, participants := room.participants })
    else if room.participants.any
        (fun p => p.name.toLower == participantName.toLower && p.uniqueId != uniqueId) then
      (store, { success := false, error := some "Name already taken in this room",
                participants := room.participants })
    else
      let room1 := { room with participants :=
        room.participants ++ [{ id := socketId, uniqueId := uniqueId, name := participantName }] }
      let store1 := saveRoom store room1
      let store2 :=
        if participantName ≠ "" ∧ participantName ≠ "Anonymous" then
          addActivity store1 roomId ActivityType.join uniqueId participantName none now
        else store1
      (store2, { success := true, error := none, participants := room1.participants })

/-- The retry loop of `removeParticipant`: read, filter the target out,
reassign the host if the target held it (`room.participants[0]?.id || null`,
where an empty-string id is falsy), save, re-read to verify, retry on a
lost write.  In this sequential model the verify step always succeeds, but
the loop is kept as in the source. -/
def removeParticipantLoop (roomId participantId : String) :
    Nat → Store → Store × List Participant
  | 0, store =>
    (store, ((getRoom store roomId).map (fun r => r.participants)).getD [])
  | (n + 1), store =>
    match getRoom store roomId with
    | none => (store, [])
    | some room =>
      let remaining := room.participants.filter (fun p => p.id != participantId)
      if remaining.length = room.participants.length then
        (store, remaining)
      else
        let hostId :=
          if room.hostId = some participantId then
            match remaining.head? with
            | some p => if p.id = "" then none else some p.id
            | none => none
          else room.hostId
        let room1 := { room with participants := remaining, hostId := hostId }
        let store1 := saveRoom store room1
        match getRoom store1 roomId with
        | none => (store1, [])
        | some verifyRoom =>
          if verifyRoom.participants.any (fun p => p.id == participantId) then
            removeParticipantLoop roomId participantId n store1
          else
            (store1, verifyRoom.participants)

def removeParticipant (store : Store) (roomId participantId : String)
    (retries : Nat) : Store × List Participant :=
  removeParticipantLoop roomId participantId retries store

def lookupUser (m : List (String × UserTodos)) (userId : String) : Option UserTodos :=
  (m.find? (fun kv => kv.1 == userId)).map (fun kv => kv.2)

def setUser (m : List (String × UserTodos)) (userId : String) (ut : UserTodos) :
    List (String × UserTodos) :=
  if m.any (fun kv => kv.1 == userId) then
    m.map (fun kv => if kv.1 == userId then (userId, ut) else kv)
  else m ++ [(userId, ut)]

/-- The `{ text?, completed? }` updates object of `updateTodo`. -/
structure TodoPatch where
  text : Option String
  completed : Option Bool
deriving DecidableEq, Repr

/-- Field-wise application of a `TodoPatch` to the found todo, in source
order (text first, then completed). -/
def applyTodoPatch (u : TodoPatch) (t : TodoItem) : TodoItem :=
  let t1 := match u.text with
    | some s => { t with text := s.trim }
    | none => t
  match u.completed with
  | some c => { t1 with completed := c }
  | none => t1

/-- `todos.find(t => t.id === todoId)` followed by in-place mutation: only
the first todo with the given id is rewritten. -/
def updateFirstTodo (todoId : String) (f : TodoItem → TodoItem) :
    List TodoItem → List TodoItem
  | [] => []
  | t :: ts =>
    if t.id = todoId then f t :: ts else t :: updateFirstTodo todoId f ts

/-- `updateTodo`: null when the room, the user's list or the todo is
absent; marking the active todo completed clears `activeTodoId`. -/
def updateTodo (store : Store) (roomId userId todoId : String)
    (updates : TodoPatch) : Store × Option (List (String × UserTodos)) :=
  match getRoom store roomId with
  | none => (store, none)
  | some room =>
    match lookupUser room.userTodos userId with
    | none => (store, none)
    | some ut =>
      if ut.todos.any (fun t => t.id == todoId) then
        let todos := updateFirstTodo todoId (applyTodoPatch updates) ut.todos
        let activeTodoId :=
          if updates.completed = some true ∧ ut.activeTodoId = some todoId then
            none
          else ut.activeTodoId
        let ut1 := { ut with todos := todos, activeTodoId := activeTodoId }
        let room1 := { room with userTodos := setUser room.userTodos userId ut1 }
        (saveRoom store room1, some room1.userTodos)
      else (store, none)

/-- `deleteTodo`: filters the todo out and clears `activeTodoId` when it
pointed at the deleted todo. -/
def deleteTodo (store : Store) (roomId userId todoId : String) :
    Store × Option (List (String × UserTodos)) :=
  match getRoom store roomId with
  | none => (store, none)
  | some room =>
    match lookupUser room.userTodos userId with
    | none => (store, none)
    | some ut =>
      let todos := ut.todos.filter (fun t => t.id != todoId)
      let activeTodoId :=
        if ut.activeTodoId = some todoId then none else ut.activeTodoId
      let ut1 := { ut with todos := todos, activeTodoId := activeTodoId }
      let room1 := { room with userTodos := setUser room.userTodos userId ut1 }
      (saveRoom store room1, some room1.userTodos)

/-- `setActiveTodo`: writes the supplied id (or null) unconditionally; the
source performs no existence or completion check on it. -/
def setActiveTodo (store : Store) (roomId userId : String)
    (todoId : Option String) : Store × Option (List (String × UserTodos)) :=
  match getRoom store roomId with
  | none => (store, none)
  | some room =>
    match lookupUser room.userTodos userId with
    | none => (store, none)
    | some ut =>
      let ut1 := { ut with activeTodoId := todoId }
      let room1 := { room with userTodos := setUser room.userTodos userId ut1 }
      (saveRoom store room1, some room1.userTodos)

/-- The per-user active-todo invariant of the data model: `activeTodoId`
is null or names an existing, non-completed todo of that user. -/
def activeTodoOk (ut : UserTodos) : Bool :=
  match ut.activeTodoId with
  | none => true
  | some a => ut.todos.any (fun t => t.id == a && !t.completed)

/-! ## Store and operation lemmas -/

theorem getRoom_saveRoom (store : Store) (room : RoomState) (k : String) :
    getRoom (saveRoom store room) k =
      if k = room.id then some room else getRoom store k := rfl

theorem getRoom_saveRoom_self (store : Store) (room : RoomState)
    (k : String) (hid : room.id = k) :
    getRoom (saveRoom store room) k = some room := by
  rw [getRoom_saveRoom, if_pos hid.symm]

/-- The activity-log entry written by `addActivity`. -/
def mkLog (type : ActivityType) (userId userName : String)
    (details : Option String) (now : Nat) : ActivityLog :=
  { id := toString now, type := type, userId := userId, userName := userName,
    timestamp := now, details := details }

theorem addActivity_found (store : Store) (roomId : String)
    (type : ActivityType) (u un : String) (d : Option String) (now : Nat)
    (room : RoomState) (h : getRoom store roomId = some room) :
    addActivity store roomId type u un d now =
      saveRoom store
        { room with history := (mkLog type u un d now :: room.history).take MAX_HISTORY } := by
  unfold addActivity
  rw [h]
  rfl

theorem getRoom_addActivity (store : Store) (roomId : String)
    (type : ActivityType) (u un : String) (d : Option String) (now : Nat)
    (room : RoomState) (h : getRoom store roomId = some room)
    (hid : room.id = roomId) :
    getRoom (addActivity store roomId type u un d now) roomId =
      some { room with history := (mkLog type u un d now :: room.history).take MAX_HISTORY } := by
  rw [addActivity_found store roomId type u un d now room h]
  exact getRoom_saveRoom_self _ _ _ hid

theorem jsOr_pos (ts now : Nat) (h : 1 ≤ ts) : jsOr (some ts) now = ts := by
  simp [jsOr, Nat.one_le_iff_ne_zero.mp h]

/-- Acceptance of the conflict-resolution guard is exactly
`lastUpdatedAt ≤ actionTime` (an unset clock, modelled as 0, accepts
everything). -/
theorem guard_accepts_iff (last a : Nat) :
    ¬ (last ≠ 0 ∧ a < last) ↔ last ≤ a := by omega

theorem startTimer_stale (store : Store) (roomId uid uname : String)
    (room : RoomState) (ts : Option Nat) (now : Nat)
    (h : getRoom store roomId = some room)
    (hg : jsOr ts now < room.timer.lastUpdatedAt) :
    startTimer store roomId uid uname ts now =
      (addActivity store roomId ActivityType.timer_start uid uname
        (some (phaseStr room.timer.phase)) now, some room.timer) := by
  unfold startTimer
  rw [h]
  simp only []
  rw [if_pos ⟨by omega, hg⟩]

/-- The timer written by an accepted `startTimer`. -/
def startedTimer (t : TimerState) (actionTime now : Nat) : TimerState :=
  { t with
    running := true,
    phaseEndsAt := some (now + t.remainingSecWhenPaused * 1000),
    lastUpdatedAt := actionTime }

theorem startTimer_accepted (store : Store) (roomId uid uname : String)
    (room : RoomState) (ts : Option Nat) (now : Nat)
    (h : getRoom store roomId = some room)
    (hg : room.timer.lastUpdatedAt ≤ jsOr ts now) :
    startTimer store roomId uid uname ts now =
      (saveRoom
        (addActivity store roomId ActivityType.timer_start uid uname
          (some (phaseStr room.timer.phase)) now)
        { room with timer := startedTimer room.timer (jsOr ts now) now },
       some (startedTimer room.timer (jsOr ts now) now)) := by
  unfold startTimer
  rw [h]
  simp only []
  rw [if_neg ((guard_accepts_iff _ _).mpr hg)]
  rfl

theorem pauseTimer_stale (store : Store) (roomId uid uname : String)
    (room : RoomState) (ts : Option Nat) (now : Nat)
    (h : getRoom store roomId = some room)
    (hg : jsOr ts now < room.timer.lastUpdatedAt) :
    pauseTimer store roomId uid uname ts now =
      (addActivity store roomId ActivityType.timer_pause uid uname
        (some (phaseStr room.timer.phase)) now, some room.timer) := by
  unfold pauseTimer
  rw [h]
  simp only []
  rw [if_pos ⟨by omega, hg⟩]

theorem pauseTimer_already_paused (store : Store) (roomId uid uname : String)
    (room : RoomState) (ts : Option Nat) (now : Nat)
    (h : getRoom store roomId = some room)
    (hg : room.timer.lastUpdatedAt ≤ jsOr ts now)
    (hp : room.timer.running = false) :
    pauseTimer store roomId uid uname ts now =
      (addActivity store roomId ActivityType.timer_pause uid uname
        (some (phaseStr room.timer.phase)) now, some room.timer) := by
  unfold pauseTimer
  rw [h]
  simp only []
  rw [if_neg ((guard_accepts_iff _ _).mpr hg), if_pos hp]

/-- The timer written by an accepted `pauseTimer` on a running timer. -/
def pausedTimer (t : TimerState) (actionTime now : Nat) : TimerState :=
  { t with
    running := false,
    phaseEndsAt := none,
    remainingSecWhenPaused := ceilSec (t.phaseEndsAt.getD 0) now,
    lastUpdatedAt := actionTime }

theorem pauseTimer_accepted (store : Store) (roomId uid uname : String)
    (room : RoomState) (ts : Option Nat) (now : Nat)
    (h : getRoom store roomId = some room)
    (hg : room.timer.lastUpdatedAt ≤ jsOr ts now)
    (hr : room.timer.running = true) :
    pauseTimer store roomId uid uname ts now =
      (saveRoom
        (addActivity store roomId ActivityType.timer_pause uid uname
          (some (phaseStr room.timer.phase)) now)
        { room with timer := pausedTimer room.timer (jsOr ts now) now },
       some (pausedTimer room.timer (jsOr ts now) now)) := by
  unfold pauseTimer
  rw [h]
  simp only []
  rw [if_neg ((guard_accepts_iff _ _).mpr hg), if_neg (by rw [hr]; simp)]
  rfl

theorem resetTimer_stale (store : Store) (roomId uid uname : String)
    (room : RoomState) (ts : Option Nat) (now : Nat)
    (h : getRoom store roomId = some room)
    (hg : jsOr ts now < room.timer.lastUpdatedAt) :
    resetTimer store roomId uid uname ts now =
      (addActivity store roomId ActivityType.timer_reset uid uname none now,
       some room.timer) := by
  unfold resetTimer
  rw [h]
  simp only []
  rw [if_pos ⟨by omega, hg⟩]

/-- The timer written by an accepted `resetTimer`. -/
def resetTimerState (t : TimerState) (settings : RoomSettings)
    (actionTime : Nat) : TimerState :=
  { t with
    running := false,
    phaseEndsAt := none,
    remainingSecWhenPaused := getPhaseDuration t.phase settings,
    lastUpdatedAt := actionTime }

theorem resetTimer_accepted (store : Store) (roomId uid uname : String)
    (room : RoomState) (ts : Option Nat) (now : Nat)
    (h : getRoom store roomId = some room)
    (hg : room.timer.lastUpdatedAt ≤ jsOr ts now) :
    resetTimer store roomId uid uname ts now =
      (saveRoom
        (addActivity store roomId ActivityType.timer_reset uid uname none now)
        { room with timer := resetTimerState room.timer room.settings (jsOr ts now) },
       some (resetTimerState room.timer room.settings (jsOr ts now))) := by
  unfold resetTimer
  rw [h]
  simp only []
  rw [if_neg ((guard_accepts_iff _ _).mpr hg)]
  rfl

theorem skipPhase_guard_rejected (store : Store) (roomId uid uname : String)
    (room : RoomState) (g : Option SkipGuard) (ts : Option Nat) (now : Nat)
    (h : getRoom store roomId = some room)
    (hg : guardFails g room.timer = true) :
    skipPhase store roomId uid uname g ts now = (store, none) := by
  unfold skipPhase
  rw [h]
  simp only []
  rw [if_pos hg]

/-- The new cycle count computed by `skipPhase`. -/
def skipCycleCount (t : TimerState) : Nat :=
  if t.phase = Phase.focus then t.cycleCount + 1 else t.cycleCount

/-- The next phase computed by `skipPhase`. -/
def skipNextPhase (t : TimerState) (settings : RoomSettings) : Phase :=
  if t.phase = Phase.focus then
    if skipCycleCount t % settings.longBreakEvery = 0 then Phase.long_break
    else Phase.brk
  else Phase.focus

/-- The timer written by an accepted `skipPhase`. -/
def skippedTimer (t : TimerState) (settings : RoomSettings)
    (actionTime : Nat) : TimerState :=
  { t with
    phase := skipNextPhase t settings,
    cycleCount := skipCycleCount t,
    running := false,
    phaseEndsAt := none,
    remainingSecWhenPaused := getPhaseDuration (skipNextPhase t settings) settings,
    lastUpdatedAt := actionTime }

theorem skipPhase_accepted (store : Store) (roomId uid uname : String)
    (room : RoomState) (g : Option SkipGuard) (ts : Option Nat) (now : Nat)
    (h : getRoom store roomId = some room)
    (hgf : guardFails g room.timer = false)
    (hg : room.timer.lastUpdatedAt ≤ jsOr ts now) :
    skipPhase store roomId uid uname g ts now =
      (saveRoom
        (addActivity store roomId ActivityType.timer_skip uid uname
          (some ("Skipped " ++ phaseStr room.timer.phase ++ " -> "
            ++ phaseStr (skipNextPhase room.timer room.settings))) now)
        { room with timer := skippedTimer room.timer room.settings (jsOr ts now) },
       some (skippedTimer room.timer room.settings (jsOr ts now))) := by
  unfold skipPhase
  rw [h]
  simp only []
  rw [if_neg (by rw [hgf]; simp)]
  rw [if_neg ((guard_accepts_iff _ _).mpr hg)]
  rfl

/-! ## Concrete fixtures -/

/-- A one-room fixture: room id `"r"`, default settings, no participants,
empty history, with the given timer. -/
def mkRoom (timer : TimerState) : RoomState :=
  { id := "r", settings := DEFAULT_SETTINGS, timer := timer, hostId := none,
    createdAt := 0, participants := [], messages := [], userTodos := [],
    history := [] }

def mkStore (timer : TimerState) : Store :=
  saveRoom emptyStore (mkRoom timer)

/-- Claim C2 (code bug): `updateSettings` is not guarded by the
conflict-resolution rule.  On a room whose timer clock reads 10, a settings
update (for which the gateway supplies a client timestamp that the store
function does not even accept) is applied unconditionally and leaves
`lastUpdatedAt` at 10 instead of setting it to the command's timestamp;
the paused timer's remaining seconds are overwritten from the new
settings. -/
theorem C2_updateSettings_no_guard :
    (updateSettings
        (mkStore { running := false, phase := Phase.focus, phaseEndsAt := none,
                   remainingSecWhenPaused := 1500, cycleCount := 0,
                   lastUpdatedAt := 10 })
        "r"
        { focusSec := some 900, breakSec := none, longBreakSec := none,
          longBreakEvery := none, mode := none }).2 =
      some { focusSec := 900, breakSec := 300, longBreakSec := 900,
             longBreakEvery := 4, mode := RoomMode.collab } ∧
    (getRoom
        (updateSettings
          (mkStore { running := false, phase := Phase.focus, phaseEndsAt := none,
                     remainingSecWhenPaused := 1500, cycleCount := 0,
                     lastUpdatedAt := 10 })
          "r"
          { focusSec := some 900, breakSec := none, longBreakSec := none,
            longBreakEvery := none, mode := none }).1 "r").map
        (fun r => (r.settings.focusSec, r.timer.lastUpdatedAt,
                   r.timer.remainingSecWhenPaused)) =
      some (900, 10, 900) := by
  decide

/-- Claim C3 (code bug): the server's `startTimer` has no already-running
no-op guard.  On a running room (deadline 1500000, stale
`remainingSecWhenPaused` 1500), an accepted redundant start at t=600000
recomputes and changes `phaseEndsAt` to 2100000. -/
theorem C3_redundant_start_moves_deadline :
    ((startTimer
        (mkStore { running := true, phase := Phase.focus,
                   phaseEndsAt := some 1500000,
                   remainingSecWhenPaused := 1500, cycleCount := 0,
                   lastUpdatedAt := 0 })
        "r" "u1" "ann" (some 600000) 600000).2).map
        (fun t => (t.running, t.phaseEndsAt)) = some (true, some 2100000) ∧
    (getRoom
        (startTimer
          (mkStore { running := true, phase := Phase.focus,
                     phaseEndsAt := some 1500000,
                     remainingSecWhenPaused := 1500, cycleCount := 0,
                     lastUpdatedAt := 0 })
          "r" "u1" "ann" (some 600000) 600000).1 "r").map
        (fun r => r.timer.phaseEndsAt) = some (some 2100000) ∧
    some (2100000 : Nat) ≠ some (1500000 : Nat) := by
  decide

/-- Claim C6 (code bug): under the Redis value-semantics store, an accepted
`startTimer` loses its activity-log entry — the final full-room write of
the stale copy clobbers the history `addActivity` just saved — while the
in-memory aliasing store keeps it; the two stores disagree. -/
theorem C6_kv_loses_activity_entry :
    ((startTimer
        (mkStore { running := false, phase := Phase.focus, phaseEndsAt := none,
                   remainingSecWhenPaused := 1500, cycleCount := 0,
                   lastUpdatedAt := 0 })
        "r" "u1" "ann" (some 5) 5).2).map (fun t => t.running) = some true ∧
    (getRoom
        (startTimer
          (mkStore { running := false, phase := Phase.focus, phaseEndsAt := none,
                     remainingSecWhenPaused := 1500, cycleCount := 0,
                     lastUpdatedAt := 0 })
          "r" "u1" "ann" (some 5) 5).1 "r").map
        (fun r => r.history.length) = some 0 ∧
    (getRoom
        (startTimerMem
          (mkStore { running := false, phase := Phase.focus, phaseEndsAt := none,
                     remainingSecWhenPaused := 1500, cycleCount := 0,
                     lastUpdatedAt := 0 })
          "r" "u1" "ann" (some 5) 5).1 "r").map
        (fun r => r.history.length) = some 1 := by
  decide

/-- The room-creation settings of the end-to-end test:
`focusSec=1500, breakSec=300, longBreakEvery=4`. -/
def c7Patch : SettingsPatch :=
  { focusSec := some 1500, breakSec := some 300, longBreakSec := none,
    longBreakEvery := some 4, mode := none }

def c7Store0 : Store := (createRoom emptyStore "r" c7Patch none 0).1

def c7Start : Store × Option TimerState :=
  startTimer c7Store0 "r" "u1" "ann" (some 0) 0

def c7Pause : Store × Option TimerState :=
  pauseTimer c7Start.1 "r" "u1" "ann" (some 600000) 600000

def c7Skip : Store × Option TimerState :=
  skipPhase c7Pause.1 "r" "u1" "ann" none (some 600000) 600000

/-- Claim C7: end-to-end test — create a room with
`focusSec=1500, breakSec=300, longBreakEvery=4`; start at t=0 gives
`running=true, phaseEndsAt=1500000`; pause at t=600000 gives
`running=false, remainingSecWhenPaused=900`; a manual skip gives
`phase=break, cycleCount=1, remainingSecWhenPaused=300, running=false`
(the model clock `now` set to the given times). -/
theorem C7_end_to_end :
    c7Start.2.map (fun t => (t.running, t.phaseEndsAt)) =
      some (true, some 1500000) ∧
    c7Pause.2.map (fun t => (t.running, t.remainingSecWhenPaused)) =
      some (false, 900) ∧
    c7Skip.2.map
        (fun t => (t.phase, t.cycleCount, t.remainingSecWhenPaused, t.running)) =
      some (Phase.brk, 1, 300, false) := by
  decide

def c4Store0 : Store :=
  mkStore { running := false, phase := Phase.focus, phaseEndsAt := none,
            remainingSecWhenPaused := 1500, cycleCount := 0,
            lastUpdatedAt := 0 }

def c4Skip1 : Store := (skipPhase c4Store0 "r" "u1" "ann" none (some 1) 1).1

def c4Skip2 : Store := (skipPhase c4Skip1 "r" "u1" "ann" none (some 1) 1).1

/-- Claim C4 counterexample: from `Focus, cycleCount=0, longBreakEvery=4`,
the second accepted skip does not visit `Break` with `cycleCount=2` as the
claim states — a skip from `Break` returns to `Focus` with the cycle count
unchanged, so after two skips the room is at `Focus, cycleCount=1`. -/
theorem C4_second_skip_cex :
    ¬ ((getRoom c4Skip2 "r").map
        (fun r => (r.timer.phase, r.timer.cycleCount)) =
      some (Phase.brk, 2)) ∧
    (getRoom c4Skip2 "r").map
        (fun r => (r.timer.phase, r.timer.cycleCount)) =
      some (Phase.focus, 1) := by
  decide

/-- Claim C1 counterexample: an accepted pause (timestamp 7 ≥
`lastUpdatedAt` = 5) on an already-paused timer does not set
`lastUpdatedAt` to the command's timestamp — the state, clock included, is
returned and persisted unchanged — refuting the claim's clause that
whenever a pause's timestamp is ≥ `lastUpdatedAt` the clock is set to it. -/
theorem C1_accepted_pause_no_bump_cex :
    (mkRoom { running := false, phase := Phase.focus, phaseEndsAt := none,
              remainingSecWhenPaused := 100, cycleCount := 0,
              lastUpdatedAt := 5 }).timer.lastUpdatedAt ≤ 7 ∧
    ((pauseTimer
        (mkStore { running := false, phase := Phase.focus, phaseEndsAt := none,
                   remainingSecWhenPaused := 100, cycleCount := 0,
                   lastUpdatedAt := 5 })
        "r" "u1" "ann" (some 7) 7).2).map (fun t => t.lastUpdatedAt) =
      some 5 ∧
    (getRoom
        (pauseTimer
          (mkStore { running := false, phase := Phase.focus, phaseEndsAt := none,
                     remainingSecWhenPaused := 100, cycleCount := 0,
                     lastUpdatedAt := 5 })
          "r" "u1" "ann" (some 7) 7).1 "r").map
        (fun r => r.timer.lastUpdatedAt) = some 5 ∧
    (5 : Nat) ≠ 7 := by
  decide

def c9Room : RoomState :=
  { id := "r", settings := DEFAULT_SETTINGS,
    timer := getInitialTimerState DEFAULT_SETTINGS, hostId := none,
    createdAt := 0, participants := [], messages := [],
    userTodos := [("u1",
      { userId := "u1", userName := "ann",
        todos := [{ id := "t1", text := "x", completed := true, createdAt := 0 }],
        activeTodoId := none, isPublic := true })],
    history := [] }

/-- Claim C9 counterexample: `setActiveTodo` performs no validation, so
setting the active todo to a completed todo's id leaves the persisted
`activeTodoId` referencing a completed todo — the active-todo invariant,
satisfied before the call, is violated after it. -/
theorem C9_setActiveTodo_cex :
    (lookupUser c9Room.userTodos "u1").map activeTodoOk = some true ∧
    ((getRoom
        (setActiveTodo (saveRoom emptyStore c9Room) "r" "u1" (some "t1")).1
        "r").bind
      (fun r => lookupUser r.userTodos "u1")).map activeTodoOk =
      some false := by
  decide

/-- Claim C1 (amended): staleness rejection and the conflict-resolution
guard for start/pause/reset.  A pause carrying timestamp `T-1` against a
clock at `T` leaves the persisted timer unchanged while prepending exactly
one activity entry; for start, pause and reset an (effective, nonzero)
timestamp below `lastUpdatedAt` leaves the persisted and returned timer
unchanged, and a timestamp ≥ `lastUpdatedAt` sets the clock to it — except
that an accepted pause of an already-paused timer returns the timer,
clock included, unchanged. -/
theorem C1_staleness_guard
    (store : Store) (roomId uid uname : String) (room : RoomState) (now : Nat)
    (h : getRoom store roomId = some room) (hid : room.id = roomId)
    (hlen : room.history.length < MAX_HISTORY) :
    (2 ≤ room.timer.lastUpdatedAt →
      ∃ e room2,
        getRoom (pauseTimer store roomId uid uname
          (some (room.timer.lastUpdatedAt - 1)) now).1 roomId = some room2 ∧
        room2.timer = room.timer ∧
        room2.history = e :: room.history ∧
        (pauseTimer store roomId uid uname
          (some (room.timer.lastUpdatedAt - 1)) now).2 = some room.timer) ∧
    (∀ ts : Nat, 1 ≤ ts → ts < room.timer.lastUpdatedAt →
      ((getRoom (startTimer store roomId uid uname (some ts) now).1 roomId).map
          (fun r => r.timer) = some room.timer ∧
        (startTimer store roomId uid uname (some ts) now).2 = some room.timer) ∧
      ((getRoom (pauseTimer store roomId uid uname (some ts) now).1 roomId).map
          (fun r => r.timer) = some room.timer ∧
        (pauseTimer store roomId uid uname (some ts) now).2 = some room.timer) ∧
      ((getRoom (resetTimer store roomId uid uname (some ts) now).1 roomId).map
          (fun r => r.timer) = some room.timer ∧
        (resetTimer store roomId uid uname (some ts) now).2 = some room.timer)) ∧
    (∀ ts : Nat, 1 ≤ ts → room.timer.lastUpdatedAt ≤ ts →
      ((getRoom (startTimer store roomId uid uname (some ts) now).1 roomId).map
          (fun r => r.timer.lastUpdatedAt) = some ts) ∧
      ((getRoom (resetTimer store roomId uid uname (some ts) now).1 roomId).map
          (fun r => r.timer.lastUpdatedAt) = some ts) ∧
      (room.timer.running = true →
        (getRoom (pauseTimer store roomId uid uname (some ts) now).1 roomId).map
          (fun r => r.timer.lastUpdatedAt) = some ts) ∧
      (room.timer.running = false →
        (getRoom (pauseTimer store roomId uid uname (some ts) now).1 roomId).map
          (fun r => r.timer) = some room.timer)) := by
  refine ⟨?_, ?_, ?_⟩
  · intro hT
    have hts : 1 ≤ room.timer.lastUpdatedAt - 1 := by omega
    have hj : jsOr (some (room.timer.lastUpdatedAt - 1)) now =
        room.timer.lastUpdatedAt - 1 := jsOr_pos _ _ hts
    have hlt : jsOr (some (room.timer.lastUpdatedAt - 1)) now <
        room.timer.lastUpdatedAt := by rw [hj]; omega
    rw [pauseTimer_stale store roomId uid uname room _ now h hlt]
    refine ⟨mkLog ActivityType.timer_pause uid uname (some (phaseStr room.timer.phase)) now, { room with history := (mkLog ActivityType.timer_pause uid uname (some (phaseStr room.timer.phase)) now :: room.history).take MAX_HISTORY }, ?_, rfl, ?_, rfl⟩
    · exact getRoom_addActivity store roomId _ uid uname _ now room h hid
    · exact List.take_of_length_le (by simp only [List.length_cons]; omega)
  · intro ts h1 hlt
    have hj : jsOr (some ts) now = ts := jsOr_pos _ _ h1
    have hlt' : jsOr (some ts) now < room.timer.lastUpdatedAt := by rw [hj]; omega
    refine ⟨⟨?_, ?_⟩, ⟨?_, ?_⟩, ⟨?_, ?_⟩⟩
    · rw [startTimer_stale store roomId uid uname room _ now h hlt']
      rw [getRoom_addActivity store roomId _ uid uname _ now room h hid]
      rfl
    · rw [startTimer_stale store roomId uid uname room _ now h hlt']
    · rw [pauseTimer_stale store roomId uid uname room _ now h hlt']
      rw [getRoom_addActivity store roomId _ uid uname _ now room h hid]
      rfl
    · rw [pauseTimer_stale store roomId uid uname room _ now h hlt']
    · rw [resetTimer_stale store roomId uid uname room _ now h hlt']
      rw [getRoom_addActivity store roomId _ uid uname _ now room h hid]
      rfl
    · rw [resetTimer_stale store roomId uid uname room _ now h hlt']
  · intro ts h1 hge
    have hj : jsOr (some ts) now = ts := jsOr_pos _ _ h1
    have hge' : room.timer.lastUpdatedAt ≤ jsOr (some ts) now := by rw [hj]; omega
    refine ⟨?_, ?_, ?_, ?_⟩
    · rw [startTimer_accepted store roomId uid uname room _ now h hge']
      simp [getRoom_saveRoom, hid, startedTimer, hj]
    · rw [resetTimer_accepted store roomId uid uname room _ now h hge']
      simp [getRoom_saveRoom, hid, resetTimerState, hj]
    · intro hr
      rw [pauseTimer_accepted store roomId uid uname room _ now h hge' hr]
      simp [getRoom_saveRoom, hid, pausedTimer, hj]
    · intro hp
      rw [pauseTimer_already_paused store roomId uid uname room _ now h hge' hp]
      rw [getRoom_addActivity store roomId _ uid uname _ now room h hid]
      rfl

def c1wTimer : TimerState :=
  { running := false, phase := Phase.focus, phaseEndsAt := none,
    remainingSecWhenPaused := 100, cycleCount := 0, lastUpdatedAt := 5 }

/-- Witness for `C1_staleness_guard` at a concrete room (clock at 5): a
start carrying timestamp 3 is dropped, leaving the timer unchanged. -/
theorem C1_staleness_guard_witness :
    (1 : Nat) ≤ 3 ∧ 3 < (mkRoom c1wTimer).timer.lastUpdatedAt ∧
    ((getRoom (startTimer (mkStore c1wTimer) "r" "u1" "ann" (some 3) 9).1 "r").map
        (fun r => r.timer) = some (mkRoom c1wTimer).timer ∧
      (startTimer (mkStore c1wTimer) "r" "u1" "ann" (some 3) 9).2 =
        some (mkRoom c1wTimer).timer) :=
  ⟨by decide, by decide,
    ((C1_staleness_guard (mkStore c1wTimer) "r" "u1" "ann" (mkRoom c1wTimer) 9
      (by decide) (by decide) (by decide)).2.1 3 (by decide) (by decide)).1⟩

/-- One accepted skip with timestamp 1 (used to iterate the skip cycle). -/
def skipOnce (store : Store) (roomId uid uname : String) : Store :=
  (skipPhase store roomId uid uname none (some 1) 1).1

def skipIter (store : Store) (roomId uid uname : String) : Nat → Store
  | 0 => store
  | n + 1 => skipOnce (skipIter store roomId uid uname n) roomId uid uname

theorem skip_step (store : Store) (roomId uid uname : String)
    (room : RoomState) (h : getRoom store roomId = some room)
    (hid : room.id = roomId)
    (hlast : room.timer.lastUpdatedAt ≤ 1) :
    getRoom (skipOnce store roomId uid uname) roomId =
      some { room with timer := skippedTimer room.timer room.settings 1 } := by
  unfold skipOnce
  rw [skipPhase_accepted store roomId uid uname room none (some 1) 1 h rfl
    (by rw [jsOr_pos 1 1 (by decide)]; omega)]
  simp [getRoom_saveRoom, hid, jsOr]

theorem skipOnce_focus (store : Store) (roomId uid uname : String)
    (room : RoomState) (h : getRoom store roomId = some room)
    (hid : room.id = roomId) (hlast : room.timer.lastUpdatedAt ≤ 1)
    (hp : room.timer.phase = Phase.focus)
    (hnm : (room.timer.cycleCount + 1) % room.settings.longBreakEvery ≠ 0) :
    getRoom (skipOnce store roomId uid uname) roomId =
      some { room with timer := { room.timer with
        phase := Phase.brk,
        cycleCount := room.timer.cycleCount + 1,
        running := false,
        phaseEndsAt := none,
        remainingSecWhenPaused := room.settings.breakSec,
        lastUpdatedAt := 1 } } := by
  rw [skip_step store roomId uid uname room h hid hlast]
  simp [skippedTimer, skipNextPhase, skipCycleCount, getPhaseDuration, hp, hnm]

theorem skipOnce_focus_long (store : Store) (roomId uid uname : String)
    (room : RoomState) (h : getRoom store roomId = some room)
    (hid : room.id = roomId) (hlast : room.timer.lastUpdatedAt ≤ 1)
    (hp : room.timer.phase = Phase.focus)
    (hm : (room.timer.cycleCount + 1) % room.settings.longBreakEvery = 0) :
    getRoom (skipOnce store roomId uid uname) roomId =
      some { room with timer := { room.timer with
        phase := Phase.long_break,
        cycleCount := room.timer.cycleCount + 1,
        running := false,
        phaseEndsAt := none,
        remainingSecWhenPaused := room.settings.longBreakSec,
        lastUpdatedAt := 1 } } := by
  rw [skip_step store roomId uid uname room h hid hlast]
  simp [skippedTimer, skipNextPhase, skipCycleCount, getPhaseDuration, hp, hm]

theorem skipOnce_break (store : Store) (roomId uid uname : String)
    (room : RoomState) (h : getRoom store roomId = some room)
    (hid : room.id = roomId) (hlast : room.timer.lastUpdatedAt ≤ 1)
    (hp : room.timer.phase ≠ Phase.focus) :
    getRoom (skipOnce store roomId uid uname) roomId =
      some { room with timer := { room.timer with
        phase := Phase.focus,
        running := false,
        phaseEndsAt := none,
        remainingSecWhenPaused := room.settings.focusSec,
        lastUpdatedAt := 1 } } := by
  rw [skip_step store roomId uid uname room h hid hlast]
  simp [skippedTimer, skipNextPhase, skipCycleCount, getPhaseDuration, hp]

/-- Claim C4 (amended): from `Focus, cycleCount=0, longBreakEvery=4`, the
skip cycle alternates `Break, Focus, Break, Focus, Break, Focus` with the
cycle count rising only on skips out of Focus (1,1,2,2,3,3); the long
break is first reached on the 7th skip (cycleCount 4) and the 8th skip
returns to Focus. -/
theorem C4_skip_cycle (store : Store) (roomId uid uname : String)
    (s : RoomSettings) (run : Bool) (pe : Option Nat) (rem : Nat)
    (hostId : Option String) (cAt : Nat) (ps : List Participant)
    (ms : List ChatMessage) (uts : List (String × UserTodos))
    (hist : List ActivityLog)
    (hevery : s.longBreakEvery = 4)
    (h : getRoom store roomId = some
      { id := roomId, settings := s,
        timer := { running := run, phase := Phase.focus, phaseEndsAt := pe,
                   remainingSecWhenPaused := rem, cycleCount := 0,
                   lastUpdatedAt := 0 },
        hostId := hostId, createdAt := cAt, participants := ps,
        messages := ms, userTodos := uts, history := hist }) :
    ((getRoom (skipIter store roomId uid uname 1) roomId).map
      (fun r => (r.timer.phase, r.timer.cycleCount)) = some (Phase.brk, 1)) ∧
    ((getRoom (skipIter store roomId uid uname 2) roomId).map
      (fun r => (r.timer.phase, r.timer.cycleCount)) = some (Phase.focus, 1)) ∧
    ((getRoom (skipIter store roomId uid uname 3) roomId).map
      (fun r => (r.timer.phase, r.timer.cycleCount)) = some (Phase.brk, 2)) ∧
    ((getRoom (skipIter store roomId uid uname 4) roomId).map
      (fun r => (r.timer.phase, r.timer.cycleCount)) = some (Phase.focus, 2)) ∧
    ((getRoom (skipIter store roomId uid uname 5) roomId).map
      (fun r => (r.timer.phase, r.timer.cycleCount)) = some (Phase.brk, 3)) ∧
    ((getRoom (skipIter store roomId uid uname 6) roomId).map
      (fun r => (r.timer.phase, r.timer.cycleCount)) = some (Phase.focus, 3)) ∧
    ((getRoom (skipIter store roomId uid uname 7) roomId).map
      (fun r => (r.timer.phase, r.timer.cycleCount)) = some (Phase.long_break, 4)) ∧
    ((getRoom (skipIter store roomId uid uname 8) roomId).map
      (fun r => (r.timer.phase, r.timer.cycleCount)) = some (Phase.focus, 4)) := by
  have h1 := skipOnce_focus store roomId uid uname _ h rfl (Nat.zero_le 1) rfl
    (by show (0 + 1) % s.longBreakEvery ≠ 0; rw [hevery]; decide)
  have h2 := skipOnce_break (skipOnce store roomId uid uname) roomId uid uname _
    h1 rfl (Nat.le_refl 1) (by intro hc; exact Phase.noConfusion hc)
  have h3 := skipOnce_focus _ roomId uid uname _ h2 rfl (Nat.le_refl 1) rfl
    (by show (0 + 1 + 1) % s.longBreakEvery ≠ 0; rw [hevery]; decide)
  have h4 := skipOnce_break _ roomId uid uname _ h3 rfl (Nat.le_refl 1) (by intro hc; exact Phase.noConfusion hc)
  have h5 := skipOnce_focus _ roomId uid uname _ h4 rfl (Nat.le_refl 1) rfl
    (by show (0 + 1 + 1 + 1) % s.longBreakEvery ≠ 0; rw [hevery]; decide)
  have h6 := skipOnce_break _ roomId uid uname _ h5 rfl (Nat.le_refl 1) (by intro hc; exact Phase.noConfusion hc)
  have h7 := skipOnce_focus_long _ roomId uid uname _ h6 rfl (Nat.le_refl 1) rfl
    (by show (0 + 1 + 1 + 1 + 1) % s.longBreakEvery = 0; rw [hevery])
  have h8 := skipOnce_break _ roomId uid uname _ h7 rfl (Nat.le_refl 1) (by intro hc; exact Phase.noConfusion hc)
  refine ⟨?_, ?_, ?_, ?_, ?_, ?_, ?_, ?_⟩
  · simp only [skipIter]
    rw [h1]
    rfl
  · simp only [skipIter]
    rw [h2]
    rfl
  · simp only [skipIter]
    rw [h3]
    rfl
  · simp only [skipIter]
    rw [h4]
    rfl
  · simp only [skipIter]
    rw [h5]
    rfl
  · simp only [skipIter]
    rw [h6]
    rfl
  · simp only [skipIter]
    rw [h7]
    rfl
  · simp only [skipIter]
    rw [h8]
    rfl

/-- Witness for `C4_skip_cycle` on a concrete fresh room: the 7th skip
lands on the long break with `cycleCount = 4`. -/
theorem C4_skip_cycle_witness :
    DEFAULT_SETTINGS.longBreakEvery = 4 ∧
    ((getRoom (skipIter c4Store0 "r" "u1" "ann" 7) "r").map
      (fun r => (r.timer.phase, r.timer.cycleCount)) = some (Phase.long_break, 4)) :=
  ⟨by decide,
    (C4_skip_cycle c4Store0 "r" "u1" "ann" DEFAULT_SETTINGS false none 1500
      none 0 [] [] [] [] (by decide) (by decide)).2.2.2.2.2.2.1⟩

/-- Claim C5: the compare-and-swap guard of `skipPhase`.  If the caller
supplies a guard and any supplied expectation (phase, running, or
phaseEndsAt) differs from the live timer, the skip is rejected as a pure
no-op: the store — timer and activity history included — is returned
unchanged and the call yields null, with nothing logged. -/
theorem C5_skip_guard_cas (store : Store) (roomId uid uname : String)
    (room : RoomState) (g : SkipGuard) (ts : Option Nat) (now : Nat)
    (h : getRoom store roomId = some room)
    (hmis :
      (∃ p, g.expectedPhase = some p ∧ p ≠ room.timer.phase) ∨
      (∃ r, g.expectedRunning = some r ∧ r ≠ room.timer.running) ∨
      (∃ e, g.expectedPhaseEndsAt = some e ∧ e ≠ room.timer.phaseEndsAt)) :
    skipPhase store roomId uid uname (some g) ts now = (store, none) := by
  apply skipPhase_guard_rejected store roomId uid uname room (some g) ts now h
  rcases hmis with ⟨p, hp, hne⟩ | ⟨r, hr, hne⟩ | ⟨e, he, hne⟩
  · simp [guardFails, hp, bne_iff_ne, Ne.symm hne]
  · simp [guardFails, hr, bne_iff_ne, Ne.symm hne]
  · simp [guardFails, he, bne_iff_ne, Ne.symm hne]

def c5Timer : TimerState :=
  { running := false, phase := Phase.focus, phaseEndsAt := none,
    remainingSecWhenPaused := 1500, cycleCount := 0, lastUpdatedAt := 0 }

def c5Guard : SkipGuard :=
  { expectedPhase := some Phase.brk, expectedPhaseEndsAt := some none,
    expectedRunning := some false }

/-- Witness for `C5_skip_guard_cas`: a guard expecting `break` against a
room in `focus` makes the skip a complete no-op. -/
theorem C5_skip_guard_cas_witness :
    getRoom (mkStore c5Timer) "r" = some (mkRoom c5Timer) ∧
    skipPhase (mkStore c5Timer) "r" "u1" "ann" (some c5Guard) (some 1) 1 =
      (mkStore c5Timer, none) :=
  ⟨by decide,
    C5_skip_guard_cas (mkStore c5Timer) "r" "u1" "ann" (mkRoom c5Timer) c5Guard
      (some 1) 1 (by decide) (Or.inl ⟨Phase.brk, rfl, by decide⟩)⟩

theorem id_check_false (l : List Participant) (x : String)
    (h : l.all (fun p => p.id != x) = true) :
    l.any (fun p => p.id == x) = false := by
  induction l with
  | nil => rfl
  | cons p ps ih =>
    simp only [List.all_cons, Bool.and_eq_true] at h
    simp only [List.any_cons, Bool.or_eq_false_iff]
    exact ⟨by cases hpx : p.id == x <;> simp_all, ih h.2⟩

theorem name_check_false (l : List Participant) (nm uid : String)
    (h : l.all (fun p => p.name.toLower != nm.toLower || p.uniqueId == uid) = true) :
    l.any (fun p => p.name.toLower == nm.toLower && p.uniqueId != uid) = false := by
  induction l with
  | nil => rfl
  | cons p ps ih =>
    simp only [List.all_cons, Bool.and_eq_true] at h
    simp only [List.any_cons, Bool.or_eq_false_iff]
    refine ⟨?_, ih h.2⟩
    have h1 := h.1
    cases ha : p.name.toLower == nm.toLower <;>
      cases hb : p.uniqueId == uid <;> simp_all

theorem addParticipant_existing (store : Store) (roomId sock uid nm : String)
    (now : Nat) (room : RoomState) (h : getRoom store roomId = some room)
    (hsock : room.participants.any (fun p => p.id == sock) = true) :
    addParticipant store roomId sock uid nm now =
      (store, { success := true, error := none, participants := room.participants }) := by
  unfold addParticipant
  rw [h]
  simp only [hsock]
  rfl

theorem addParticipant_name_taken (store : Store) (roomId sock uid nm : String)
    (now : Nat) (room : RoomState) (h : getRoom store roomId = some room)
    (hsock : room.participants.any (fun p => p.id == sock) = false)
    (hname : room.participants.any
      (fun p => p.name.toLower == nm.toLower && p.uniqueId != uid) = true) :
    addParticipant store roomId sock uid nm now =
      (store, { success := false, error := some "Name already taken in this room",
                participants := room.participants }) := by
  unfold addParticipant
  rw [h]
  simp only [hsock, hname]
  rfl

theorem addParticipant_new_spec (store : Store) (roomId sock uid nm : String)
    (now : Nat) (room : RoomState) (h : getRoom store roomId = some room)
    (hid : room.id = roomId)
    (hsock : room.participants.any (fun p => p.id == sock) = false)
    (hname : room.participants.any
      (fun p => p.name.toLower == nm.toLower && p.uniqueId != uid) = false) :
    (addParticipant store roomId sock uid nm now).2.success = true ∧
    (addParticipant store roomId sock uid nm now).2.participants =
      room.participants ++ [{ id := sock, uniqueId := uid, name := nm }] ∧
    ∃ room1, getRoom (addParticipant store roomId sock uid nm now).1 roomId = some room1 ∧
      room1.id = room.id ∧
      room1.participants =
        room.participants ++ [{ id := sock, uniqueId := uid, name := nm }] := by
  unfold addParticipant
  rw [h]
  simp only [hsock, hname]
  simp only [Bool.false_eq_true, if_false]
  constructor
  · trivial
  constructor
  · trivial
  by_cases hanon : nm ≠ "" ∧ nm ≠ "Anonymous"
  · rw [if_pos hanon]
    have hsave : getRoom
        (saveRoom store { room with participants :=
          room.participants ++ [{ id := sock, uniqueId := uid, name := nm }] })
        roomId = some { room with participants :=
          room.participants ++ [{ id := sock, uniqueId := uid, name := nm }] } :=
      getRoom_saveRoom_self _ _ _ hid
    refine ⟨_, getRoom_addActivity _ _ _ _ _ _ _ _ hsave hid, rfl, rfl⟩
  · rw [if_neg hanon]
    refine ⟨_, getRoom_saveRoom_self _ _ _ hid, rfl, rfl⟩

/-- Claim C8: name uniqueness on join.  In a room where socket ids `s1, s2`
are fresh and the display name `n` is not held (case-insensitively) by a
persistent user other than `u1`: joining as `(s1, u1, n)` succeeds and adds
one participant; a second join `(s2, u2, n)` with a different persistent id
fails with the name-taken error and changes nothing; a second join
`(s2, u1, n)` with the same persistent id succeeds and grows the list to
two more than before; and repeating the first call with the already-present
socket id `s1` succeeds without touching the store. -/
theorem C8_name_uniqueness (store : Store) (roomId s1 s2 u1 u2 n : String)
    (room : RoomState) (now1 now2 : Nat)
    (h : getRoom store roomId = some room) (hid : room.id = roomId)
    (hs1 : room.participants.all (fun p => p.id != s1) = true)
    (hs2 : room.participants.all (fun p => p.id != s2) = true)
    (hs12 : s1 ≠ s2) (hu : u1 ≠ u2)
    (hname : room.participants.all
      (fun p => p.name.toLower != n.toLower || p.uniqueId == u1) = true) :
    ((addParticipant store roomId s1 u1 n now1).2.success = true) ∧
    ((getRoom (addParticipant store roomId s1 u1 n now1).1 roomId).map
      (fun r => r.participants.length) = some (room.participants.length + 1)) ∧
    ((addParticipant (addParticipant store roomId s1 u1 n now1).1 roomId s2 u2 n now2).2.success = false) ∧
    ((addParticipant (addParticipant store roomId s1 u1 n now1).1 roomId s2 u2 n now2).2.error = some "Name already taken in this room") ∧
    ((addParticipant (addParticipant store roomId s1 u1 n now1).1 roomId s2 u2 n now2).1 = (addParticipant store roomId s1 u1 n now1).1) ∧
    ((addParticipant (addParticipant store roomId s1 u1 n now1).1 roomId s2 u1 n now2).2.success = true) ∧
    ((getRoom (addParticipant (addParticipant store roomId s1 u1 n now1).1 roomId s2 u1 n now2).1 roomId).map
      (fun r => r.participants.length) = some (room.participants.length + 2)) ∧
    ((addParticipant (addParticipant store roomId s1 u1 n now1).1 roomId s1 u1 n now2).2.success = true) ∧
    ((addParticipant (addParticipant store roomId s1 u1 n now1).1 roomId s1 u1 n now2).1 = (addParticipant store roomId s1 u1 n now1).1) := by
  obtain ⟨hsucc1, hres1, room1, h1, hid1, hparts1⟩ :=
    addParticipant_new_spec store roomId s1 u1 n now1 room h hid
      (id_check_false _ _ hs1) (name_check_false _ _ _ hname)
  have hid1' : room1.id = roomId := hid1.trans hid
  have hanyS2 : room1.participants.any (fun p => p.id == s2) = false := by
    rw [hparts1, List.any_append, id_check_false _ _ hs2]
    simp [beq_eq_false_iff_ne, hs12]
  have hanyS1 : room1.participants.any (fun p => p.id == s1) = true := by
    rw [hparts1, List.any_append]
    simp
  have hnameU2 : room1.participants.any
      (fun p => p.name.toLower == n.toLower && p.uniqueId != u2) = true := by
    rw [hparts1, List.any_append]
    simp [bne_iff_ne, hu]
  have hnameU1 : room1.participants.any
      (fun p => p.name.toLower == n.toLower && p.uniqueId != u1) = false := by
    rw [hparts1, List.any_append, name_check_false _ _ _ hname]
    simp
  have hA := addParticipant_name_taken _ roomId s2 u2 n now2 room1 h1 hanyS2 hnameU2
  obtain ⟨hsuccB, hresB, room2, h2, hid2, hparts2⟩ :=
    addParticipant_new_spec _ roomId s2 u1 n now2 room1 h1 hid1' hanyS2 hnameU1
  have hC := addParticipant_existing _ roomId s1 u1 n now2 room1 h1 hanyS1
  refine ⟨hsucc1, ?_, ?_, ?_, ?_, hsuccB, ?_, ?_, ?_⟩
  · rw [h1]
    simp [hparts1]
  · rw [hA]
  · rw [hA]
  · rw [hA]
  · rw [h2]
    simp [hparts2, hparts1]
  · rw [hC]
  · rw [hC]

def c8Store : Store := mkStore (getInitialTimerState DEFAULT_SETTINGS)

/-- Witness for `C8_name_uniqueness` on an empty room: "Alice" joins as
persistent user p1; a second "Alice" with persistent id p2 is rejected;
a second tab of p1 named "Alice" is admitted, giving two participants. -/
theorem C8_name_uniqueness_witness :
    ("a" : String) ≠ "b" ∧ ("p1" : String) ≠ "p2" ∧
    ((addParticipant c8Store "r" "a" "p1" "Alice" 1).2.success = true) ∧
    ((addParticipant (addParticipant c8Store "r" "a" "p1" "Alice" 1).1 "r" "b" "p2" "Alice" 2).2.success = false) ∧
    ((addParticipant (addParticipant c8Store "r" "a" "p1" "Alice" 1).1 "r" "b" "p2" "Alice" 2).2.error = some "Name already taken in this room") ∧
    ((getRoom (addParticipant (addParticipant c8Store "r" "a" "p1" "Alice" 1).1 "r" "b" "p1" "Alice" 2).1 "r").map
      (fun r => r.participants.length) = some 2) := by
  have H := C8_name_uniqueness c8Store "r" "a" "b" "p1" "p2" "Alice"
    (mkRoom (getInitialTimerState DEFAULT_SETTINGS)) 1 2 (by decide) (by decide)
    (by decide) (by decide) (by decide) (by decide) (by decide)
  exact ⟨by decide, by decide, H.1, H.2.2.1, H.2.2.2.1, H.2.2.2.2.2.2.1⟩

theorem applyTodoPatch_id (u : TodoPatch) (t : TodoItem) :
    (applyTodoPatch u t).id = t.id := by
  unfold applyTodoPatch
  cases u.text <;> cases u.completed <;> rfl

theorem applyTodoPatch_completed_none (u : TodoPatch) (t : TodoItem)
    (h : u.completed = none) : (applyTodoPatch u t).completed = t.completed := by
  unfold applyTodoPatch
  rw [h]
  cases u.text <;> rfl

theorem applyTodoPatch_completed_some (u : TodoPatch) (t : TodoItem) (c : Bool)
    (h : u.completed = some c) : (applyTodoPatch u t).completed = c := by
  unfold applyTodoPatch
  rw [h]

theorem any_updateFirstTodo (todos : List TodoItem) (a todoId : String)
    (u : TodoPatch) (hcond : a = todoId → u.completed ≠ some true)
    (h : todos.any (fun t => t.id == a && !t.completed) = true) :
    (updateFirstTodo todoId (applyTodoPatch u) todos).any
      (fun t => t.id == a && !t.completed) = true := by
  induction todos with
  | nil => simp at h
  | cons t ts ih =>
    simp only [List.any_cons, Bool.or_eq_true] at h
    unfold updateFirstTodo
    by_cases hti : t.id = todoId
    · rw [if_pos hti]
      rcases h with hhead | htail
      · simp only [Bool.and_eq_true, beq_iff_eq, Bool.not_eq_true'] at hhead
        have ha : a = todoId := hhead.1 ▸ hti
        have hcu : u.completed ≠ some true := hcond ha
        simp only [List.any_cons, Bool.or_eq_true]
        left
        simp only [Bool.and_eq_true, beq_iff_eq, Bool.not_eq_true']
        refine ⟨by rw [applyTodoPatch_id, hhead.1], ?_⟩
        cases hc : u.completed with
        | none => rw [applyTodoPatch_completed_none u t hc, hhead.2]
        | some b =>
          cases b with
          | false => rw [applyTodoPatch_completed_some u t false hc]
          | true => exact absurd hc hcu
      · simp only [List.any_cons, Bool.or_eq_true]
        right
        exact htail
    · rw [if_neg hti]
      rcases h with hhead | htail
      · simp only [List.any_cons, Bool.or_eq_true]
        left
        exact hhead
      · simp only [List.any_cons, Bool.or_eq_true]
        right
        exact ih htail

theorem any_filter_ne (todos : List TodoItem) (a todoId : String)
    (hne : a ≠ todoId)
    (h : todos.any (fun t => t.id == a && !t.completed) = true) :
    (todos.filter (fun t => t.id != todoId)).any
      (fun t => t.id == a && !t.completed) = true := by
  induction todos with
  | nil => simp at h
  | cons t ts ih =>
    simp only [List.any_cons, Bool.or_eq_true] at h
    rw [List.filter_cons]
    rcases h with hhead | htail
    · have hta : t.id = a := by
        simp only [Bool.and_eq_true, beq_iff_eq] at hhead
        exact hhead.1
      have : (t.id != todoId) = true := by
        simp [bne_iff_ne, hta, hne]
      rw [if_pos this]
      simp only [List.any_cons, Bool.or_eq_true]
      left
      exact hhead
    · by_cases hkeep : (t.id != todoId) = true
      · rw [if_pos hkeep]
        simp only [List.any_cons, Bool.or_eq_true]
        right
        exact ih htail
      · rw [if_neg hkeep]
        exact ih htail

theorem lookupUser_setUser (m : List (String × UserTodos)) (k : String)
    (ut : UserTodos) : lookupUser (setUser m k ut) k = some ut := by
  induction m with
  | nil =>
    simp [setUser, lookupUser, List.find?]
  | cons kv tl ih =>
    unfold setUser
    by_cases hh : (kv.1 == k) = true
    · rw [if_pos (by simp [List.any_cons, hh])]
      simp only [List.map_cons, if_pos hh]
      simp [lookupUser, List.find?]
    · by_cases ht : (tl.any fun x => x.1 == k) = true
      · rw [if_pos (by simp [List.any_cons, hh, ht])]
        simp only [List.map_cons, if_neg hh]
        have ih2 : lookupUser (tl.map fun x => if x.1 == k then (k, ut) else x) k = some ut := by
          have := ih
          unfold setUser at this
          rwa [if_pos ht] at this
        unfold lookupUser at ih2 ⊢
        simp only [List.find?_cons, hh]
        exact ih2
      · rw [if_neg (by simp [List.any_cons]; push_neg; exact ⟨by simpa using hh, by simpa using ht⟩)]
        have ih2 : lookupUser (tl ++ [(k, ut)]) k = some ut := by
          have := ih
          unfold setUser at this
          rwa [if_neg ht] at this
        unfold lookupUser at ih2 ⊢
        simp only [List.cons_append, List.find?_cons, hh]
        exact ih2

/-- The user-todos record written by `updateTodo` when the todo exists. -/
def updatedUt (ut : UserTodos) (todoId : String) (u : TodoPatch) : UserTodos :=
  { ut with
    todos := updateFirstTodo todoId (applyTodoPatch u) ut.todos,
    activeTodoId :=
      if u.completed = some true ∧ ut.activeTodoId = some todoId then none
      else ut.activeTodoId }

/-- The user-todos record written by `deleteTodo`. -/
def deletedUt (ut : UserTodos) (todoId : String) : UserTodos :=
  { ut with
    todos := ut.todos.filter (fun t => t.id != todoId),
    activeTodoId :=
      if ut.activeTodoId = some todoId then none else ut.activeTodoId }

theorem updateTodo_found (store : Store) (roomId userId todoId : String)
    (u : TodoPatch) (room : RoomState) (ut : UserTodos)
    (h : getRoom store roomId = some room)
    (hu : lookupUser room.userTodos userId = some ut)
    (hf : (ut.todos.any fun t => t.id == todoId) = true) :
    updateTodo store roomId userId todoId u =
      (saveRoom store { room with
        userTodos := setUser room.userTodos userId (updatedUt ut todoId u) },
       some (setUser room.userTodos userId (updatedUt ut todoId u))) := by
  unfold updateTodo
  rw [h]
  simp only []
  rw [hu]
  simp only []
  rw [if_pos hf]
  rfl

theorem updateTodo_notfound (store : Store) (roomId userId todoId : String)
    (u : TodoPatch) (room : RoomState) (ut : UserTodos)
    (h : getRoom store roomId = some room)
    (hu : lookupUser room.userTodos userId = some ut)
    (hf : (ut.todos.any fun t => t.id == todoId) = false) :
    updateTodo store roomId userId todoId u = (store, none) := by
  unfold updateTodo
  rw [h]
  simp only []
  rw [hu]
  simp only []
  rw [if_neg (by rw [hf]; exact Bool.false_ne_true)]

theorem deleteTodo_eq (store : Store) (roomId userId todoId : String)
    (room : RoomState) (ut : UserTodos)
    (h : getRoom store roomId = some room)
    (hu : lookupUser room.userTodos userId = some ut) :
    deleteTodo store roomId userId todoId =
      (saveRoom store { room with
        userTodos := setUser room.userTodos userId (deletedUt ut todoId) },
       some (setUser room.userTodos userId (deletedUt ut todoId))) := by
  unfold deleteTodo
  rw [h]
  simp only []
  rw [hu]
  rfl

theorem updatedUt_ok (ut : UserTodos) (todoId : String) (u : TodoPatch)
    (hinv : activeTodoOk ut = true) :
    activeTodoOk (updatedUt ut todoId u) = true := by
  unfold updatedUt activeTodoOk
  by_cases hclear : u.completed = some true ∧ ut.activeTodoId = some todoId
  · rw [if_pos hclear]
  · rw [if_neg hclear]
    cases hact : ut.activeTodoId with
    | none => rfl
    | some a =>
      have hany : (ut.todos.any fun t => t.id == a && !t.completed) = true := by
        unfold activeTodoOk at hinv
        rwa [hact] at hinv
      rw [hact] at hclear
      have hcond : a = todoId → u.completed ≠ some true := by
        intro ha hc
        exact hclear ⟨hc, by rw [ha]⟩
      exact any_updateFirstTodo ut.todos a todoId u hcond hany

theorem deletedUt_ok (ut : UserTodos) (todoId : String)
    (hinv : activeTodoOk ut = true) :
    activeTodoOk (deletedUt ut todoId) = true := by
  unfold deletedUt activeTodoOk
  by_cases hda : ut.activeTodoId = some todoId
  · rw [if_pos hda]
  · rw [if_neg hda]
    cases hact : ut.activeTodoId with
    | none => rfl
    | some a =>
      have hany : (ut.todos.any fun t => t.id == a && !t.completed) = true := by
        unfold activeTodoOk at hinv
        rwa [hact] at hinv
      rw [hact] at hda
      have hne : a ≠ todoId := by
        intro he
        exact hda (by rw [he])
      exact any_filter_ne ut.todos a todoId hne hany

/-- Claim C9 (amended): the active-todo clearing behaviour holds and the
invariant is preserved by `updateTodo` and `deleteTodo` — marking the
active todo completed clears `activeTodoId`, deleting the active todo
clears it, and both operations keep `activeTodoId` pointing at an
existing, non-completed todo — while `setActiveTodo` writes the given id
unchecked (see the counterexample). -/
theorem C9_active_todo (store : Store) (roomId userId todoId : String)
    (u : TodoPatch) (room : RoomState) (ut : UserTodos)
    (h : getRoom store roomId = some room) (hid : room.id = roomId)
    (hu : lookupUser room.userTodos userId = some ut)
    (hinv : activeTodoOk ut = true) :
    (((getRoom (updateTodo store roomId userId todoId u).1 roomId).bind
        (fun r => lookupUser r.userTodos userId)).map activeTodoOk = some true) ∧
    (u.completed = some true → ut.activeTodoId = some todoId →
      (ut.todos.any fun t => t.id == todoId) = true →
      ((getRoom (updateTodo store roomId userId todoId u).1 roomId).bind
        (fun r => lookupUser r.userTodos userId)).map
          (fun x => x.activeTodoId) = some none) ∧
    (((getRoom (deleteTodo store roomId userId todoId).1 roomId).bind
        (fun r => lookupUser r.userTodos userId)).map activeTodoOk = some true) ∧
    (ut.activeTodoId = some todoId →
      ((getRoom (deleteTodo store roomId userId todoId).1 roomId).bind
        (fun r => lookupUser r.userTodos userId)).map
          (fun x => x.activeTodoId) = some none) := by
  have hdel := deleteTodo_eq store roomId userId todoId room ut h hu
  refine ⟨?_, ?_, ?_, ?_⟩
  · by_cases hf : (ut.todos.any fun t => t.id == todoId) = true
    · rw [updateTodo_found store roomId userId todoId u room ut h hu hf]
      simp [getRoom_saveRoom, hid, lookupUser_setUser, updatedUt_ok ut todoId u hinv]
    · rw [updateTodo_notfound store roomId userId todoId u room ut h hu
        (Bool.not_eq_true _ ▸ hf)]
      simp [h, hu, hinv]
  · intro hc hact hf
    rw [updateTodo_found store roomId userId todoId u room ut h hu hf]
    have hnone : (updatedUt ut todoId u).activeTodoId = none := by
      unfold updatedUt
      simp [hc, hact]
    simp [getRoom_saveRoom, hid, lookupUser_setUser, hnone]
  · rw [hdel]
    simp [getRoom_saveRoom, hid, lookupUser_setUser, deletedUt_ok ut todoId hinv]
  · intro hda
    rw [hdel]
    have hnone : (deletedUt ut todoId).activeTodoId = none := by
      unfold deletedUt
      simp [hda]
    simp [getRoom_saveRoom, hid, lookupUser_setUser, hnone]

def c9wUt : UserTodos :=
  { userId := "u1", userName := "ann",
    todos := [{ id := "t1", text := "x", completed := false, createdAt := 0 }],
    activeTodoId := some "t1", isPublic := true }

def c9wRoom : RoomState :=
  { id := "r", settings := DEFAULT_SETTINGS,
    timer := getInitialTimerState DEFAULT_SETTINGS, hostId := none,
    createdAt := 0, participants := [], messages := [],
    userTodos := [("u1", c9wUt)], history := [] }

/-- Witness for `C9_active_todo`: deleting the active todo `t1` of user
`u1` clears `activeTodoId` in the persisted room. -/
theorem C9_active_todo_witness :
    activeTodoOk c9wUt = true ∧
    ((getRoom (deleteTodo (saveRoom emptyStore c9wRoom) "r" "u1" "t1").1 "r").bind
        (fun r => lookupUser r.userTodos "u1")).map
          (fun x => x.activeTodoId) = some none :=
  ⟨by decide,
    (C9_active_todo (saveRoom emptyStore c9wRoom) "r" "u1" "t1"
      { text := none, completed := none } c9wRoom c9wUt (by decide) (by decide)
      (by decide) (by decide)).2.2.2 (by decide)⟩

theorem filter_removes_all (l : List Participant) (x : String) :
    ((l.filter fun p => p.id != x).any fun p => p.id == x) = false := by
  induction l with
  | nil => rfl
  | cons p ps ih =>
    rw [List.filter_cons]
    by_cases hp : (p.id != x) = true
    · rw [if_pos hp]
      simp only [List.any_cons, Bool.or_eq_false_iff]
      refine ⟨?_, ih⟩
      cases hq : p.id == x
      · rfl
      · rw [bne_iff_ne] at hp
        exact absurd (by rwa [beq_iff_eq] at hq) hp
    · rw [if_neg hp]
      exact ih

theorem filter_length_lt (l : List Participant) (x : String)
    (h : (l.any fun p => p.id == x) = true) :
    (l.filter fun p => p.id != x).length ≠ l.length := by
  induction l with
  | nil => simp at h
  | cons p ps ih =>
    simp only [List.any_cons, Bool.or_eq_true] at h
    rw [List.filter_cons]
    by_cases hp : (p.id != x) = true
    · rw [if_pos hp]
      simp only [List.length_cons, Ne, Nat.succ_inj]
      rcases h with hhead | htail
      · rw [bne_iff_ne] at hp
        rw [beq_iff_eq] at hhead
        exact absurd hhead hp
      · exact ih htail
    · rw [if_neg hp]
      have := List.length_filter_le (fun p => p.id != x) ps
      simp only [List.length_cons]
      omega

/-- Claim C10: removing the participant that holds `hostId` reassigns the
host to the first remaining participant in list order (or null when the
room empties); the returned list is the filtered one.  Participant ids are
assumed nonempty, as socket ids are (the source maps an empty id to null
through JavaScript falsiness). -/
theorem C10_host_reassign (store : Store) (roomId pid : String)
    (room : RoomState)
    (h : getRoom store roomId = some room) (hid : room.id = roomId)
    (hhost : room.hostId = some pid)
    (hin : (room.participants.any fun p => p.id == pid) = true)
    (hids : (room.participants.all fun p => p.id != "") = true) :
    ((getRoom (removeParticipant store roomId pid 3).1 roomId).map
      (fun r => r.hostId) =
        some ((room.participants.filter fun p => p.id != pid).head?.map
          (fun p => p.id))) ∧
    (removeParticipant store roomId pid 3).2 =
      room.participants.filter (fun p => p.id != pid) := by
  have hasgn :
      (if room.hostId = some pid then
        match (room.participants.filter fun p => p.id != pid).head? with
        | some p => if p.id = "" then none else some p.id
        | none => none
      else room.hostId) =
        (room.participants.filter fun p => p.id != pid).head?.map
          (fun p => p.id) := by
    rw [if_pos hhost]
    cases hh : (room.participants.filter fun p => p.id != pid).head? with
    | none => rfl
    | some p =>
      have hpmem : p ∈ room.participants.filter fun p => p.id != pid :=
        List.mem_of_mem_head? hh
      have hpmem2 : p ∈ room.participants := List.mem_of_mem_filter hpmem
      have hne : (p.id != "") = true := by
        rw [List.all_eq_true] at hids
        exact hids p hpmem2
      rw [bne_iff_ne] at hne
      show (if p.id = "" then none else some p.id) = Option.map (fun p => p.id) (some p)
      rw [if_neg hne]
      rfl
  unfold removeParticipant removeParticipantLoop
  rw [h]
  simp only []
  rw [if_neg (filter_length_lt room.participants pid hin)]
  rw [hasgn]
  simp [getRoom_saveRoom, hid, filter_removes_all]

def c10Room : RoomState :=
  { id := "r", settings := DEFAULT_SETTINGS,
    timer := getInitialTimerState DEFAULT_SETTINGS, hostId := some "a",
    createdAt := 0,
    participants := [{ id := "a", uniqueId := "p1", name := "Ann" },
                     { id := "b", uniqueId := "p2", name := "Bob" }],
    messages := [], userTodos := [], history := [] }

/-- Witness for `C10_host_reassign`: removing host connection `a` hands
the host role to `b`, the first remaining participant. -/
theorem C10_host_reassign_witness :
    c10Room.hostId = some "a" ∧
    ((c10Room.participants.any fun p => p.id == "a") = true) ∧
    ((getRoom (removeParticipant (saveRoom emptyStore c10Room) "r" "a" 3).1 "r").map
      (fun r => r.hostId) = some (some "b")) := by
  refine ⟨by decide, by decide, ?_⟩
  rw [(C10_host_reassign (saveRoom emptyStore c10Room) "r" "a" c10Room
    (by decide) (by decide) (by decide) (by decide) (by decide)).1]
  decide
